import Mathlib

/-!
Shallow embedding of the y3nko_api request-authorization core:
the Firebase auth context builder (src/middleware/auth.ts), the
authorization guard, the error classifier (src/middleware/errorHandler.ts),
the fixed-window rate limiter (src/middleware/rateLimiter.ts), and the
guarded SQL resolvers (trip, booking, payment, review, vehicle mutations).

JavaScript numbers used as timestamps and counters are modelled as Nat
(all values involved are nonnegative integers); SQL rows are modelled as
structures carrying exactly the columns the modelled statements touch;
the parameterized-query layer is modelled by direct list transformations
matching each statement's WHERE/SET/RETURNING clauses (the repository's
own unit tests mock the query layer the same way: a DELETE resolves to
the list of matched rows).
-/

namespace Y3nko

/-- A verified Firebase identity, as built in authMiddleware from the
decoded token (uid and email; the remaining decoded-token fields are not
consulted by any modelled resolver). -/
structure FirebaseUser where
  uid : String
  email : Option String
deriving Repr, DecidableEq

/-- The per-request GraphQL context produced by authMiddleware. -/
structure GraphQLContext where
  isAuthenticated : Bool
  user : Option FirebaseUser
deriving Repr, DecidableEq

/-- Occurrence of a character pattern inside a character list: the
pattern starts at this position or occurs further right. -/
def containsPat (pat : List Char) : List Char → Bool
  | [] => pat.isEmpty
  | c :: cs => pat.isPrefixOf (c :: cs) || containsPat pat cs

/-- JavaScript String.prototype.includes: substring occurrence. -/
def strIncludes (s pat : String) : Bool :=
  containsPat pat.data s.data

/-- JavaScript String.prototype.startsWith. -/
def strStarts (s p : String) : Bool :=
  p.data.isPrefixOf s.data

/-- JavaScript String.prototype.substring(n) for an index inside the
string (drop the first n characters). -/
def strDrop (s : String) (n : Nat) : String :=
  ⟨s.data.drop n⟩

/-- authMiddleware (src/middleware/auth.ts): the identity provider's
admin.auth().verifyIdToken is an external collaborator, passed as the
function argument verify (returning Except like a promise that may
reject). The middleware itself returns Except to model that it could in
principle throw; its try/catch swallows verification failure. -/
def authMiddleware (verify : String → Except String FirebaseUser)
    (authHeader : Option String) : Except String GraphQLContext :=
  match authHeader with
  | none => .ok ⟨false, none⟩
  | some h =>
    if strStarts h "Bearer " then
      match verify (strDrop h 7) with
      | .ok u => .ok ⟨true, some u⟩
      | .error _ => .ok ⟨false, none⟩
    else .ok ⟨false, none⟩

/-- requireAuth (src/middleware/auth.ts): throws
Error('Authentication required') iff the context is unauthenticated or
carries no user. -/
def requireAuth (ctx : GraphQLContext) : Except String FirebaseUser :=
  match ctx.isAuthenticated, ctx.user with
  | true, some u => .ok u
  | true, none => .error "Authentication required"
  | false, _ => .error "Authentication required"

/-- The classified error returned by the errorHandler middleware
(message, code, statusCode; the extensions field always repeats code). -/
structure ClassifiedError where
  message : String
  code : String
  statusCode : Nat
deriving Repr, DecidableEq

/-- errorHandler (src/middleware/errorHandler.ts): classifies an error by
substring tests on its message, in source order; production controls only
the default branch. -/
def errorHandler (production : Bool) (msg : String) : ClassifiedError :=
  if strIncludes msg "Authentication required" then
    ⟨"Authentication required", "UNAUTHENTICATED", 401⟩
  else if strIncludes msg "Insufficient permissions" then
    ⟨"Insufficient permissions", "FORBIDDEN", 403⟩
  else if strIncludes msg "not found" then
    ⟨"Resource not found", "NOT_FOUND", 404⟩
  else if strIncludes msg "duplicate key" || strIncludes msg "already exists" then
    ⟨"Resource already exists", "CONFLICT", 409⟩
  else if strIncludes msg "validation" then
    ⟨"Validation error", "BAD_USER_INPUT", 400⟩
  else if strIncludes msg "database" || strIncludes msg "connection" then
    ⟨"Database error occurred", "INTERNAL_SERVER_ERROR", 500⟩
  else if production then
    ⟨"An unexpected error occurred", "INTERNAL_SERVER_ERROR", 500⟩
  else
    ⟨msg, "INTERNAL_SERVER_ERROR", 500⟩

/-! ## Rate limiter (src/middleware/rateLimiter.ts)

One key's slot of the store; times in milliseconds. -/

/-- One store entry: request count and window reset timestamp. -/
structure RateLimitEntry where
  count : Nat
  resetTime : Nat
deriving Repr, DecidableEq

/-- The value returned by InMemoryRateLimiter.isAllowed. -/
structure RateLimitResult where
  allowed : Bool
  resetTime : Nat
  remaining : Nat
deriving Repr, DecidableEq

/-- InMemoryRateLimiter.isAllowed for a single key: fresh entry when the
store slot is empty or the entry has expired (resetTime < now, strict);
otherwise increment and compare. Math.max(0, max - count) is Nat
truncated subtraction. Returns the result and the updated slot. -/
def isAllowed (windowMs maxRequests : Nat) (store : Option RateLimitEntry)
    (now : Nat) : RateLimitResult × Option RateLimitEntry :=
  match store with
  | none =>
    (⟨true, now + windowMs, maxRequests - 1⟩, some ⟨1, now + windowMs⟩)
  | some e =>
    if e.resetTime < now then
      (⟨true, now + windowMs, maxRequests - 1⟩, some ⟨1, now + windowMs⟩)
    else
      (⟨decide (e.count + 1 ≤ maxRequests), e.resetTime,
        maxRequests - (e.count + 1)⟩, some ⟨e.count + 1, e.resetTime⟩)

/-- rateLimiterMiddleware computes retryAfter as
Math.ceil((resetTime - Date.now()) / 1000) on a denied request. -/
def retryAfterSeconds (resetTime now : Nat) : Nat :=
  (resetTime - now + 999) / 1000

/-- Process a sequence of requests from one key (arrival times in ms),
pairing each isAllowed result with its arrival time. -/
def runLimiter (windowMs maxRequests : Nat) :
    Option RateLimitEntry → List Nat → List (RateLimitResult × Nat)
  | _, [] => []
  | st, t :: ts =>
    let r := isAllowed windowMs maxRequests st t
    (r.1, t) :: runLimiter windowMs maxRequests r.2 ts

/-- The store slot left after a sequence of requests from one key. -/
def limiterState (windowMs maxRequests : Nat)
    (st : Option RateLimitEntry) (ts : List Nat) : Option RateLimitEntry :=
  ts.foldl (fun s t => (isAllowed windowMs maxRequests s t).2) st

/-! ## Relational store

Rows carry exactly the columns the modelled statements read or write;
enumerated status columns are strings, as bound by the resolvers. -/

/-- A trips row (columns touched by the trip mutations). -/
structure TripRow where
  id : String
  driver_id : String
  trip_status : String
deriving Repr, DecidableEq

/-- A bookings row (columns touched by the booking/payment mutations). -/
structure BookingRow where
  id : String
  trip_id : String
  rider_id : String
  booking_status : String
  payment_status : String
deriving Repr, DecidableEq

/-- A payments row (columns touched by verifyPayment/processRefund; the
mocked paystack_transaction_id and gateway_response columns are written
but never read and are omitted). -/
structure PaymentRow where
  id : String
  booking_id : String
  paystack_reference : String
  payment_status : String
deriving Repr, DecidableEq

/-- A reviews row. -/
structure ReviewRow where
  id : String
  booking_id : String
  reviewer_id : String
  reviewee_id : String
  rating : Int
deriving Repr, DecidableEq

/-- A vehicles row (columns touched by deleteVehicle). -/
structure VehicleRow where
  id : String
  driver_id : String
deriving Repr, DecidableEq

/-- A driver_profiles row (columns touched by the review recompute).
average_rating is DECIMAL(3,2), a fixed-point decimal with two fractional
digits; it is modelled exactly as an integer count of hundredths. -/
structure DriverProfileRow where
  user_id : String
  average_rating : Int
deriving Repr, DecidableEq

/-- The relational store. -/
structure DB where
  trips : List TripRow
  bookings : List BookingRow
  payments : List PaymentRow
  reviews : List ReviewRow
  vehicles : List VehicleRow
  driver_profiles : List DriverProfileRow
deriving Repr, DecidableEq

/-! ## Trip mutations (src/resolvers/tripResolvers.ts)

UPDATE trips SET trip_status = s WHERE id = $1 AND driver_id = $2
RETURNING *; the resolver throws 'Trip not found or unauthorized' when no
row comes back, else returns result[0]. -/

/-- The conditional status update shared by cancelTrip / startTrip /
completeTrip: returns (RETURNING rows, updated store). -/
def tripStatusUpdate (db : DB) (s tripId driverId : String) :
    List TripRow × DB :=
  ((db.trips.filter (fun r => r.id == tripId && r.driver_id == driverId)).map
      (fun r => { r with trip_status := s }),
   { db with trips := db.trips.map (fun r =>
      if r.id == tripId && r.driver_id == driverId then
        { r with trip_status := s } else r) })

/-- cancelTrip resolver. -/
def cancelTrip (db : DB) (ctx : GraphQLContext) (id : String) :
    Except String (TripRow × DB) := do
  let user ← requireAuth ctx
  let r := tripStatusUpdate db "cancelled" id user.uid
  match r.1 with
  | [] => .error "Trip not found or unauthorized"
  | row :: _ => .ok (row, r.2)

/-- startTrip resolver. -/
def startTrip (db : DB) (ctx : GraphQLContext) (id : String) :
    Except String (TripRow × DB) := do
  let user ← requireAuth ctx
  let r := tripStatusUpdate db "active" id user.uid
  match r.1 with
  | [] => .error "Trip not found or unauthorized"
  | row :: _ => .ok (row, r.2)

/-- completeTrip resolver. -/
def completeTrip (db : DB) (ctx : GraphQLContext) (id : String) :
    Except String (TripRow × DB) := do
  let user ← requireAuth ctx
  let r := tripStatusUpdate db "completed" id user.uid
  match r.1 with
  | [] => .error "Trip not found or unauthorized"
  | row :: _ => .ok (row, r.2)

/-- deleteVehicle (src/resolvers/userResolvers.ts):
DELETE FROM vehicles WHERE id = $1 AND driver_id = $2; returns
result.length > 0 (the repository's tests mock the query layer so that
the DELETE resolves to the matched rows). Never throws past requireAuth. -/
def deleteVehicle (db : DB) (ctx : GraphQLContext) (id : String) :
    Except String (Bool × DB) := do
  let user ← requireAuth ctx
  let deleted := db.vehicles.filter (fun v =>
    v.id == id && v.driver_id == user.uid)
  .ok (decide (deleted.length > 0),
       { db with vehicles := db.vehicles.filter (fun v =>
          !(v.id == id && v.driver_id == user.uid)) })

/-- confirmBooking (src/resolvers/bookingResolvers.ts):
UPDATE bookings SET booking_status = 'confirmed' WHERE id = $1
RETURNING *; throws 'Booking not found' when no row comes back. The
WHERE clause carries no rider_id/driver_id condition. -/
def confirmBooking (db : DB) (ctx : GraphQLContext) (id : String) :
    Except String (BookingRow × DB) := do
  let _ ← requireAuth ctx
  let rows := (db.bookings.filter (fun b => b.id == id)).map
    (fun b => { b with booking_status := "confirmed" })
  match rows with
  | [] => .error "Booking not found"
  | row :: _ =>
    .ok (row, { db with bookings := db.bookings.map (fun b =>
      if b.id == id then { b with booking_status := "confirmed" } else b) })

/-- cancelBooking (src/resolvers/bookingResolvers.ts):
UPDATE bookings SET booking_status = 'cancelled'
WHERE id = $1 AND rider_id = $2 RETURNING *; throws
'Booking not found or unauthorized' when no row comes back. -/
def cancelBooking (db : DB) (ctx : GraphQLContext) (id : String) :
    Except String (BookingRow × DB) := do
  let user ← requireAuth ctx
  let rows := (db.bookings.filter (fun b =>
      b.id == id && b.rider_id == user.uid)).map
    (fun b => { b with booking_status := "cancelled" })
  match rows with
  | [] => .error "Booking not found or unauthorized"
  | row :: _ =>
    .ok (row, { db with bookings := db.bookings.map (fun b =>
      if b.id == id && b.rider_id == user.uid then
        { b with booking_status := "cancelled" } else b) })

/-- verifyPayment (src/resolvers/paymentResolvers.ts): sets
payment_status = 'completed' on payments WHERE paystack_reference = $3
RETURNING *; throws 'Payment not found' on no row; then sets the matched
payment's booking to payment_status = 'paid'. -/
def verifyPayment (db : DB) (ctx : GraphQLContext) (reference : String) :
    Except String (PaymentRow × DB) := do
  let _ ← requireAuth ctx
  let rows := (db.payments.filter (fun p =>
      p.paystack_reference == reference)).map
    (fun p => { p with payment_status := "completed" })
  let db1 : DB := { db with payments := db.payments.map (fun p =>
    if p.paystack_reference == reference then
      { p with payment_status := "completed" } else p) }
  match rows with
  | [] => .error "Payment not found"
  | row :: _ =>
    .ok (row, { db1 with bookings := db1.bookings.map (fun b =>
      if b.id == row.booking_id then
        { b with payment_status := "paid" } else b) })

/-- processRefund (src/resolvers/paymentResolvers.ts): sets
payment_status = 'refunded' on payments WHERE id = $1 RETURNING *;
throws 'Payment not found' on no row; then sets the matched payment's
booking to payment_status = 'refunded'. -/
def processRefund (db : DB) (ctx : GraphQLContext) (paymentId : String) :
    Except String (PaymentRow × DB) := do
  let _ ← requireAuth ctx
  let rows := (db.payments.filter (fun p => p.id == paymentId)).map
    (fun p => { p with payment_status := "refunded" })
  let db1 : DB := { db with payments := db.payments.map (fun p =>
    if p.id == paymentId then { p with payment_status := "refunded" } else p) }
  match rows with
  | [] => .error "Payment not found"
  | row :: _ =>
    .ok (row, { db1 with bookings := db1.bookings.map (fun b =>
      if b.id == row.booking_id then
        { b with payment_status := "refunded" } else b) })

/-! ## Review creation (src/resolvers/reviewResolvers.ts) -/

/-- The ratings of all reviews rows WHERE reviewee_id = d. -/
def ratingsFor (reviews : List ReviewRow) (d : String) : List Int :=
  (reviews.filter (fun r => r.reviewee_id == d)).map (fun r => r.rating)

/-- SELECT AVG(rating)::DECIMAL(3,2) over a nonempty list of nonnegative
ratings, in hundredths: the mean 100 * sum / len rounded to the nearest
integer, halves away from zero, i.e. floor((200 * sum + len) / (2 * len)).
All values cast here are averages of ratings in [1,5], so every division
convention on Int agrees with floor. -/
def pgAvgHundredths (l : List Int) : Int :=
  (200 * l.sum + l.length) / (2 * (l.length : Int))

/-- The arithmetic mean of a list of ratings as a rational, written from
the specification words (the spec-side value the stored DECIMAL(3,2)
column is compared against). -/
def listMeanQ (l : List Int) : Rat :=
  ((l.sum : Int) : Rat) / (l.length : Rat)

/-- The join SELECT b.*, t.driver_id FROM bookings b JOIN trips t ON
b.trip_id = t.id, as (booking, driver_id) pairs in table order. -/
def bookingTripJoin (db : DB) : List (BookingRow × String) :=
  db.bookings.flatMap (fun b =>
    (db.trips.filter (fun t => t.id == b.trip_id)).map
      (fun t => (b, t.driver_id)))

/-- createReview: validates the rating first, then looks the booking up
through the join restricted to the caller being a party, determines the
reviewee as the other party, rejects a duplicate (booking, reviewer)
review, inserts, and — when the caller is the rider — recomputes the
reviewee driver's average_rating as AVG(rating)::DECIMAL(3,2) over all
reviews WHERE reviewee_id matches, over the post-insert table. Errors
leave the store untouched, so the result pairs the thrown-or-returned
value with the resulting store. newId stands for the generated uuid. -/
def createReview (db : DB) (ctx : GraphQLContext) (bookingId : String)
    (rating : Int) (newId : String) : Except String ReviewRow × DB :=
  match requireAuth ctx with
  | .error e => (.error e, db)
  | .ok user =>
    if rating < 1 || rating > 5 then
      (.error "Rating must be between 1 and 5", db)
    else
      match (bookingTripJoin db).filter (fun bt =>
          bt.1.id == bookingId &&
          (bt.1.rider_id == user.uid || bt.2 == user.uid)) with
      | [] => (.error "Booking not found or unauthorized", db)
      | bt :: _ =>
        let revieweeId :=
          if bt.1.rider_id == user.uid then bt.2 else bt.1.rider_id
        match db.reviews.filter (fun rv =>
            rv.booking_id == bookingId && rv.reviewer_id == user.uid) with
        | _ :: _ => (.error "Review already exists for this booking", db)
        | [] =>
          let newRow : ReviewRow :=
            ⟨newId, bookingId, user.uid, revieweeId, rating⟩
          let db1 : DB := { db with reviews := db.reviews ++ [newRow] }
          let db2 : DB :=
            if bt.1.rider_id == user.uid then
              { db1 with driver_profiles := db1.driver_profiles.map (fun p =>
                if p.user_id == revieweeId then
                  { p with average_rating :=
                      pgAvgHundredths (ratingsFor db1.reviews revieweeId) }
                else p) }
            else db1
          (.ok newRow, db2)

/-- An authenticated context for the given Firebase uid. -/
def ctxOf (uid : String) : GraphQLContext :=
  ⟨true, some ⟨uid, none⟩⟩

/-- One createReview invocation's arguments. -/
structure ReviewCall where
  uid : String
  bookingId : String
  rating : Int
  newId : String
deriving Repr, DecidableEq

/-- Run a sequence of createReview calls, requiring every call to
succeed; none is returned as soon as one fails. -/
def runReviews (db : DB) : List ReviewCall → Option DB
  | [] => some db
  | c :: cs =>
    match createReview db (ctxOf c.uid) c.bookingId c.rating c.newId with
    | (.ok _, db1) => runReviews db1 cs
    | (.error _, _) => none

/-- The caller-visible outcome of a resolver returning a row: the thrown
error or the returned row, with the store state dropped. -/
def visible {α : Type} (r : Except String (α × DB)) : Except String α :=
  r.map Prod.fst

/-! ## Theorems -/

/-- C2: authMiddleware never surfaces an error: for every request it
returns an ok context; when the authorization header is absent or does
not start with Bearer and a space, the context is unauthenticated and is
the same whatever the identity provider would answer (the provider is
not consulted); when token verification fails for any reason, the
context is again unauthenticated rather than an error. -/
theorem c2_context_builder_never_errors :
    (∀ (verify : String → Except String FirebaseUser) (h : Option String),
      ∃ c, authMiddleware verify h = .ok c)
    ∧ (∀ (verify : String → Except String FirebaseUser),
        authMiddleware verify none = .ok ⟨false, none⟩)
    ∧ (∀ (verify verify2 : String → Except String FirebaseUser) (s : String),
        strStarts s "Bearer " = false →
        authMiddleware verify (some s) = .ok ⟨false, none⟩ ∧
        authMiddleware verify (some s) = authMiddleware verify2 (some s))
    ∧ (∀ (verify : String → Except String FirebaseUser) (s e : String),
        verify (strDrop s 7) = .error e →
        authMiddleware verify (some s) = .ok ⟨false, none⟩) := by
  refine ⟨?_, fun _ => rfl, ?_, ?_⟩
  · intro verify h
    match h with
    | none => exact ⟨⟨false, none⟩, rfl⟩
    | some s =>
      unfold authMiddleware
      by_cases hs : strStarts s "Bearer "
      · simp only [hs, if_true]
        match verify (strDrop s 7) with
        | .ok u => exact ⟨⟨true, some u⟩, rfl⟩
        | .error _ => exact ⟨⟨false, none⟩, rfl⟩
      · simp only [hs, if_false]
        exact ⟨⟨false, none⟩, rfl⟩
  · intro verify verify2 s hs
    constructor <;> simp only [authMiddleware, hs, Bool.false_eq_true, if_false]
  · intro verify s e hv
    unfold authMiddleware
    by_cases hs : strStarts s "Bearer "
    · simp only [hs, if_true, hv]
    · simp only [hs, Bool.false_eq_true, if_false]

/-- C2 witness: the theorem at a failing verifier, a malformed header, an
absent header, and a well-formed header whose token fails verification. -/
theorem c2_context_builder_never_errors_witness :
    (∃ c, authMiddleware (fun _ => .error "invalid token")
        (some "Bearer tok") = .ok c)
    ∧ authMiddleware (fun _ => .error "invalid token") none = .ok ⟨false, none⟩
    ∧ (authMiddleware (fun _ => .error "invalid token") (some "Basic abc")
          = .ok ⟨false, none⟩
        ∧ authMiddleware (fun _ => .error "invalid token") (some "Basic abc")
          = authMiddleware (fun t => .ok ⟨t, none⟩) (some "Basic abc"))
    ∧ authMiddleware (fun _ => .error "invalid token") (some "Bearer tok")
        = .ok ⟨false, none⟩ :=
  ⟨c2_context_builder_never_errors.1 _ _,
   c2_context_builder_never_errors.2.1 _,
   c2_context_builder_never_errors.2.2.1 _ _ "Basic abc" (by decide),
   c2_context_builder_never_errors.2.2.2 _ "Bearer tok" "invalid token" rfl⟩

/-- C3: requireAuth returns the identity exactly when the context is
authenticated and carries a user; otherwise it fails with the
Authentication required error, which the error classifier maps to code
UNAUTHENTICATED with status 401 (never an internal 500); consequently
every modelled resolver, invoked on a context lacking a valid identity,
fails with that same error. -/
theorem c3_require_auth_guard :
    (∀ (ctx : GraphQLContext) (u : FirebaseUser),
      ctx.isAuthenticated = true → ctx.user = some u →
      requireAuth ctx = .ok u)
    ∧ (∀ ctx : GraphQLContext,
        ctx.isAuthenticated = false ∨ ctx.user = none →
        requireAuth ctx = .error "Authentication required")
    ∧ (∀ production : Bool,
        errorHandler production "Authentication required" =
          ⟨"Authentication required", "UNAUTHENTICATED", 401⟩
        ∧ (errorHandler production "Authentication required").statusCode ≠ 500)
    ∧ (∀ (ctx : GraphQLContext) (db : DB) (id bid nid : String) (r : Int),
        ctx.isAuthenticated = false ∨ ctx.user = none →
        cancelTrip db ctx id = .error "Authentication required"
        ∧ startTrip db ctx id = .error "Authentication required"
        ∧ completeTrip db ctx id = .error "Authentication required"
        ∧ deleteVehicle db ctx id = .error "Authentication required"
        ∧ confirmBooking db ctx id = .error "Authentication required"
        ∧ cancelBooking db ctx id = .error "Authentication required"
        ∧ verifyPayment db ctx id = .error "Authentication required"
        ∧ processRefund db ctx id = .error "Authentication required"
        ∧ createReview db ctx bid r nid =
            (.error "Authentication required", db)) := by
  have hreq : ∀ ctx : GraphQLContext,
      ctx.isAuthenticated = false ∨ ctx.user = none →
      requireAuth ctx = .error "Authentication required" := by
    intro ctx h
    match ctx, h with
    | ⟨false, u⟩, _ => rfl
    | ⟨true, _⟩, .inl h => exact absurd h (by simp)
    | ⟨true, none⟩, .inr _ => rfl
  refine ⟨?_, hreq, ?_, ?_⟩
  · intro ctx u hauth huser
    match ctx, hauth, huser with
    | ⟨true, some u⟩, _, rfl => rfl
  · intro production
    refine ⟨by cases production <;> decide, by cases production <;> decide⟩
  · intro ctx db id bid nid r h
    have he := hreq ctx h
    refine ⟨?_, ?_, ?_, ?_, ?_, ?_, ?_, ?_, ?_⟩ <;>
      simp [cancelTrip, startTrip, completeTrip, deleteVehicle,
        confirmBooking, cancelBooking, verifyPayment, processRefund,
        createReview, he, bind, Except.bind]

/-- C3 witness: the theorem at an authenticated context, at the
unauthenticated context, at production, and at one store. -/
theorem c3_require_auth_guard_witness :
    requireAuth ⟨true, some ⟨"u1", none⟩⟩ = .ok ⟨"u1", none⟩
    ∧ requireAuth ⟨false, none⟩ = .error "Authentication required"
    ∧ errorHandler true "Authentication required" =
        ⟨"Authentication required", "UNAUTHENTICATED", 401⟩
    ∧ cancelTrip ⟨[], [], [], [], [], []⟩ ⟨false, none⟩ "t1" =
        .error "Authentication required" :=
  ⟨c3_require_auth_guard.1 _ _ rfl rfl,
   c3_require_auth_guard.2.1 _ (Or.inl rfl),
   (c3_require_auth_guard.2.2.1 true).1,
   (c3_require_auth_guard.2.2.2 ⟨false, none⟩ ⟨[], [], [], [], [], []⟩
      "t1" "b1" "n1" 5 (Or.inl rfl)).1⟩

/-- C4: each trip mutation performs one conditional update restricted to
rows matching both the trip id and driver_id = caller, writing cancelled
/ active / completed respectively; with no matching row (absent or not
owned) it fails with the NotFoundOrUnauthorized error, else it returns
the updated row and the store with exactly the matching rows updated. -/
theorem c4_trip_mutations_conditional_update :
    ∀ (db : DB) (ctx : GraphQLContext) (u : FirebaseUser) (id : String),
      requireAuth ctx = .ok u →
      ((∀ t ∈ db.trips, t.id = id → t.driver_id ≠ u.uid) →
        cancelTrip db ctx id = .error "Trip not found or unauthorized"
        ∧ startTrip db ctx id = .error "Trip not found or unauthorized"
        ∧ completeTrip db ctx id = .error "Trip not found or unauthorized")
      ∧ (∀ (r : TripRow) (rest : List TripRow),
          db.trips.filter (fun t => t.id == id && t.driver_id == u.uid)
            = r :: rest →
          cancelTrip db ctx id =
            .ok ({ r with trip_status := "cancelled" },
              { db with trips := db.trips.map (fun t =>
                  if t.id == id && t.driver_id == u.uid then
                    { t with trip_status := "cancelled" } else t) })
          ∧ startTrip db ctx id =
            .ok ({ r with trip_status := "active" },
              { db with trips := db.trips.map (fun t =>
                  if t.id == id && t.driver_id == u.uid then
                    { t with trip_status := "active" } else t) })
          ∧ completeTrip db ctx id =
            .ok ({ r with trip_status := "completed" },
              { db with trips := db.trips.map (fun t =>
                  if t.id == id && t.driver_id == u.uid then
                    { t with trip_status := "completed" } else t) })) := by
  intro db ctx u id hu
  constructor
  · intro hnone
    have hnil : db.trips.filter
        (fun t => t.id == id && t.driver_id == u.uid) = [] := by
      rw [List.filter_eq_nil_iff]
      intro t ht
      simp only [Bool.and_eq_true, beq_iff_eq, not_and]
      exact fun h1 => hnone t ht h1
    refine ⟨?_, ?_, ?_⟩ <;>
      simp [cancelTrip, startTrip, completeTrip, hu, tripStatusUpdate,
        hnil, bind, Except.bind]
  · intro r rest hcons
    refine ⟨?_, ?_, ?_⟩ <;>
      simp [cancelTrip, startTrip, completeTrip, hu, tripStatusUpdate,
        hcons, bind, Except.bind]

/-- C4 witness: a store holding one trip owned by the caller and nothing
matching a second id: the owned id updates, the other id errors. -/
theorem c4_trip_mutations_conditional_update_witness :
    cancelTrip ⟨[⟨"t1", "d1", "scheduled"⟩], [], [], [], [], []⟩
        ⟨true, some ⟨"d1", none⟩⟩ "t9" = .error "Trip not found or unauthorized"
    ∧ cancelTrip ⟨[⟨"t1", "d1", "scheduled"⟩], [], [], [], [], []⟩
        ⟨true, some ⟨"d1", none⟩⟩ "t1" =
      .ok (⟨"t1", "d1", "cancelled"⟩,
        ⟨[⟨"t1", "d1", "cancelled"⟩], [], [], [], [], []⟩) := by
  constructor
  · exact ((c4_trip_mutations_conditional_update
      ⟨[⟨"t1", "d1", "scheduled"⟩], [], [], [], [], []⟩
      ⟨true, some ⟨"d1", none⟩⟩ ⟨"d1", none⟩ "t9" rfl).1 (by decide)).1
  · have h := ((c4_trip_mutations_conditional_update
      ⟨[⟨"t1", "d1", "scheduled"⟩], [], [], [], [], []⟩
      ⟨true, some ⟨"d1", none⟩⟩ ⟨"d1", none⟩ "t1" rfl).2
      ⟨"t1", "d1", "scheduled"⟩ [] (by decide)).1
    simpa using h

/-- C5: two-run non-leak property for the conditional ownership
updates: an authenticated caller targeting an existing row it does not
own sees exactly the same outcome as the same caller targeting an id
that matches nothing (error value for the trip and booking mutations,
returned boolean for deleteVehicle). -/
theorem c5_ownership_updates_non_leaking :
    ∀ (ctx : GraphQLContext) (u : FirebaseUser),
      requireAuth ctx = .ok u →
      (∀ (db1 : DB) (id1 : String) (db2 : DB) (id2 : String),
        (∀ t ∈ db1.trips, t.id = id1 → t.driver_id ≠ u.uid) →
        (∀ t ∈ db2.trips, t.id ≠ id2) →
        visible (cancelTrip db1 ctx id1) = visible (cancelTrip db2 ctx id2)
        ∧ visible (startTrip db1 ctx id1) = visible (startTrip db2 ctx id2)
        ∧ visible (completeTrip db1 ctx id1)
            = visible (completeTrip db2 ctx id2))
      ∧ (∀ (db1 : DB) (id1 : String) (db2 : DB) (id2 : String),
        (∀ v ∈ db1.vehicles, v.id = id1 → v.driver_id ≠ u.uid) →
        (∀ v ∈ db2.vehicles, v.id ≠ id2) →
        visible (deleteVehicle db1 ctx id1)
          = visible (deleteVehicle db2 ctx id2))
      ∧ (∀ (db1 : DB) (id1 : String) (db2 : DB) (id2 : String),
        (∀ b ∈ db1.bookings, b.id = id1 → b.rider_id ≠ u.uid) →
        (∀ b ∈ db2.bookings, b.id ≠ id2) →
        visible (cancelBooking db1 ctx id1)
          = visible (cancelBooking db2 ctx id2)) := by
  intro ctx u hu
  refine ⟨?_, ?_, ?_⟩
  · intro db1 id1 db2 id2 h1 h2
    have hn1 : db1.trips.filter
        (fun t => t.id == id1 && t.driver_id == u.uid) = [] := by
      rw [List.filter_eq_nil_iff]
      intro t ht
      simp only [Bool.and_eq_true, beq_iff_eq, not_and]
      exact fun h => h1 t ht h
    have hn2 : db2.trips.filter
        (fun t => t.id == id2 && t.driver_id == u.uid) = [] := by
      rw [List.filter_eq_nil_iff]
      intro t ht
      simp only [Bool.and_eq_true, beq_iff_eq, not_and]
      exact fun h => absurd h (h2 t ht)
    refine ⟨?_, ?_, ?_⟩ <;>
      simp [cancelTrip, startTrip, completeTrip, hu, tripStatusUpdate,
        hn1, hn2, bind, Except.bind, visible]
  · intro db1 id1 db2 id2 h1 h2
    have hn1 : db1.vehicles.filter
        (fun v => v.id == id1 && v.driver_id == u.uid) = [] := by
      rw [List.filter_eq_nil_iff]
      intro v hv
      simp only [Bool.and_eq_true, beq_iff_eq, not_and]
      exact fun h => h1 v hv h
    have hn2 : db2.vehicles.filter
        (fun v => v.id == id2 && v.driver_id == u.uid) = [] := by
      rw [List.filter_eq_nil_iff]
      intro v hv
      simp only [Bool.and_eq_true, beq_iff_eq, not_and]
      exact fun h => absurd h (h2 v hv)
    simp [deleteVehicle, hu, hn1, hn2, bind, Except.bind, visible, Except.map]
  · intro db1 id1 db2 id2 h1 h2
    have hn1 : db1.bookings.filter
        (fun b => b.id == id1 && b.rider_id == u.uid) = [] := by
      rw [List.filter_eq_nil_iff]
      intro b hb
      simp only [Bool.and_eq_true, beq_iff_eq, not_and]
      exact fun h => h1 b hb h
    have hn2 : db2.bookings.filter
        (fun b => b.id == id2 && b.rider_id == u.uid) = [] := by
      rw [List.filter_eq_nil_iff]
      intro b hb
      simp only [Bool.and_eq_true, beq_iff_eq, not_and]
      exact fun h => absurd h (h2 b hb)
    simp [cancelBooking, hu, hn1, hn2, bind, Except.bind, visible]

/-- C5 witness: a store whose one trip, vehicle and booking belong to
another user, against an empty store with a fresh id. -/
theorem c5_ownership_updates_non_leaking_witness :
    visible (cancelTrip ⟨[⟨"t1", "owner", "scheduled"⟩], [], [], [], [], []⟩
        ⟨true, some ⟨"attacker", none⟩⟩ "t1")
      = visible (cancelTrip ⟨[], [], [], [], [], []⟩
        ⟨true, some ⟨"attacker", none⟩⟩ "t9")
    ∧ visible (deleteVehicle ⟨[], [], [], [], [⟨"v1", "owner"⟩], []⟩
        ⟨true, some ⟨"attacker", none⟩⟩ "v1")
      = visible (deleteVehicle ⟨[], [], [], [], [], []⟩
        ⟨true, some ⟨"attacker", none⟩⟩ "v9")
    ∧ visible (cancelBooking
        ⟨[], [⟨"b1", "t1", "owner", "pending", "pending"⟩], [], [], [], []⟩
        ⟨true, some ⟨"attacker", none⟩⟩ "b1")
      = visible (cancelBooking ⟨[], [], [], [], [], []⟩
        ⟨true, some ⟨"attacker", none⟩⟩ "b9") :=
  ⟨((c5_ownership_updates_non_leaking ⟨true, some ⟨"attacker", none⟩⟩ ⟨"attacker", none⟩ rfl).1
      ⟨[⟨"t1", "owner", "scheduled"⟩], [], [], [], [], []⟩ "t1"
      ⟨[], [], [], [], [], []⟩ "t9" (by decide) (by decide)).1,
   (c5_ownership_updates_non_leaking ⟨true, some ⟨"attacker", none⟩⟩ ⟨"attacker", none⟩ rfl).2.1
      ⟨[], [], [], [], [⟨"v1", "owner"⟩], []⟩ "v1"
      ⟨[], [], [], [], [], []⟩ "v9" (by decide) (by decide),
   (c5_ownership_updates_non_leaking ⟨true, some ⟨"attacker", none⟩⟩ ⟨"attacker", none⟩ rfl).2.2
      ⟨[], [⟨"b1", "t1", "owner", "pending", "pending"⟩], [], [], [], []⟩ "b1"
      ⟨[], [], [], [], [], []⟩ "b9" (by decide) (by decide)⟩

/-- C8: deleteVehicle returns the boolean saying whether a row matching
both the vehicle id and the caller as owner was removed, never an error
on zero matched rows; running it again on the resulting store returns
false with the store unchanged, so two calls in a row on the same id
give true then false when the row existed, with no error on the second
call. -/
theorem c8_delete_vehicle_boolean_idempotent :
    ∀ (db : DB) (ctx : GraphQLContext) (u : FirebaseUser) (id : String),
      requireAuth ctx = .ok u →
      ∃ db1, deleteVehicle db ctx id =
          .ok (decide (∃ v ∈ db.vehicles, v.id = id ∧ v.driver_id = u.uid), db1)
        ∧ deleteVehicle db1 ctx id = .ok (false, db1) := by
  intro db ctx u id hu
  refine ⟨{ db with vehicles := db.vehicles.filter (fun v =>
    !(v.id == id && v.driver_id == u.uid)) }, ?_, ?_⟩
  · have hb : decide
        (0 < (db.vehicles.filter
          (fun v => v.id == id && v.driver_id == u.uid)).length)
        = decide (∃ v ∈ db.vehicles, v.id = id ∧ v.driver_id = u.uid) := by
      rw [decide_eq_decide, List.length_pos, Ne, List.filter_eq_nil_iff]
      simp [not_forall]
    simp only [deleteVehicle, hu, bind, Except.bind, hb]
  · have hnil : ∀ (l : List VehicleRow) (p : VehicleRow → Bool),
        (l.filter (fun v => !(p v))).filter p = [] := by
      intro l p
      rw [List.filter_eq_nil_iff]
      intro v hv
      have := (List.mem_filter.mp hv).2
      simpa using this
    have hid : ∀ (l : List VehicleRow) (p : VehicleRow → Bool),
        (l.filter (fun v => !(p v))).filter (fun v => !(p v))
          = l.filter (fun v => !(p v)) := by
      intro l p
      rw [List.filter_eq_self]
      intro v hv
      exact (List.mem_filter.mp hv).2
    simp only [deleteVehicle, hu, bind, Except.bind,
      hnil db.vehicles (fun v => v.id == id && v.driver_id == u.uid),
      hid db.vehicles (fun v => v.id == id && v.driver_id == u.uid)]
    simp

/-- C8 witness: one vehicle owned by the caller; the first delete
returns true, the second false, no error either time. -/
theorem c8_delete_vehicle_boolean_idempotent_witness :
    ∃ db1, deleteVehicle ⟨[], [], [], [], [⟨"v1", "d1"⟩], []⟩
        ⟨true, some ⟨"d1", none⟩⟩ "v1" =
        .ok (decide (∃ v ∈ [(⟨"v1", "d1"⟩ : VehicleRow)],
          v.id = "v1" ∧ v.driver_id = "d1"), db1)
      ∧ deleteVehicle db1 ⟨true, some ⟨"d1", none⟩⟩ "v1" = .ok (false, db1) :=
  c8_delete_vehicle_boolean_idempotent ⟨[], [], [], [], [⟨"v1", "d1"⟩], []⟩
    ⟨true, some ⟨"d1", none⟩⟩ ⟨"d1", none⟩ "v1" rfl

/-- C10: confirmBooking conditions its update on the booking id alone:
for any authenticated caller it succeeds, setting booking_status to
confirmed, exactly when a row with that id exists — whoever owns it — and
fails with the Booking not found error only when no row matches the id;
the outcome never depends on which authenticated identity calls it. -/
theorem c10_confirm_booking_ignores_ownership :
    ∀ (db : DB) (ctx : GraphQLContext) (u : FirebaseUser) (id : String),
      requireAuth ctx = .ok u →
      ((∀ b ∈ db.bookings, b.id ≠ id) →
        confirmBooking db ctx id = .error "Booking not found")
      ∧ (∀ (b : BookingRow) (rest : List BookingRow),
          db.bookings.filter (fun x => x.id == id) = b :: rest →
          confirmBooking db ctx id =
            .ok ({ b with booking_status := "confirmed" },
              { db with bookings := db.bookings.map (fun x =>
                  if x.id == id then { x with booking_status := "confirmed" }
                  else x) }))
      ∧ (∀ (ctx2 : GraphQLContext) (u2 : FirebaseUser),
          requireAuth ctx2 = .ok u2 →
          confirmBooking db ctx id = confirmBooking db ctx2 id) := by
  intro db ctx u id hu
  refine ⟨?_, ?_, ?_⟩
  · intro hnone
    have hnil : db.bookings.filter (fun x => x.id == id) = [] := by
      rw [List.filter_eq_nil_iff]
      intro b hb
      simpa using hnone b hb
    simp [confirmBooking, hu, hnil, bind, Except.bind]
  · intro b rest hcons
    simp [confirmBooking, hu, hcons, bind, Except.bind]
  · intro ctx2 u2 hu2
    simp [confirmBooking, hu, hu2, bind, Except.bind]

/-- C10 witness: a booking owned by someone else is confirmed by a
non-owner; a missing id fails with Booking not found; rider and
stranger get identical outcomes. -/
theorem c10_confirm_booking_ignores_ownership_witness :
    confirmBooking ⟨[], [⟨"b1", "t1", "rider", "pending", "pending"⟩],
        [], [], [], []⟩ ⟨true, some ⟨"stranger", none⟩⟩ "b9" =
      .error "Booking not found"
    ∧ confirmBooking ⟨[], [⟨"b1", "t1", "rider", "pending", "pending"⟩],
        [], [], [], []⟩ ⟨true, some ⟨"stranger", none⟩⟩ "b1" =
      .ok (⟨"b1", "t1", "rider", "confirmed", "pending"⟩,
        ⟨[], [⟨"b1", "t1", "rider", "confirmed", "pending"⟩], [], [], [], []⟩)
    ∧ confirmBooking ⟨[], [⟨"b1", "t1", "rider", "pending", "pending"⟩],
        [], [], [], []⟩ ⟨true, some ⟨"stranger", none⟩⟩ "b1" =
      confirmBooking ⟨[], [⟨"b1", "t1", "rider", "pending", "pending"⟩],
        [], [], [], []⟩ ⟨true, some ⟨"rider", none⟩⟩ "b1" := by
  refine ⟨?_, ?_, ?_⟩
  · exact (c10_confirm_booking_ignores_ownership
      ⟨[], [⟨"b1", "t1", "rider", "pending", "pending"⟩], [], [], [], []⟩
      ⟨true, some ⟨"stranger", none⟩⟩ ⟨"stranger", none⟩ "b9" rfl).1
      (by decide)
  · have h := (c10_confirm_booking_ignores_ownership
      ⟨[], [⟨"b1", "t1", "rider", "pending", "pending"⟩], [], [], [], []⟩
      ⟨true, some ⟨"stranger", none⟩⟩ ⟨"stranger", none⟩ "b1" rfl).2.1
      ⟨"b1", "t1", "rider", "pending", "pending"⟩ [] (by decide)
    simpa using h
  · exact (c10_confirm_booking_ignores_ownership
      ⟨[], [⟨"b1", "t1", "rider", "pending", "pending"⟩], [], [], [], []⟩
      ⟨true, some ⟨"stranger", none⟩⟩ ⟨"stranger", none⟩ "b1" rfl).2.2
      ⟨true, some ⟨"rider", none⟩⟩ ⟨"rider", none⟩ rfl

/-- C9: at a store holding one pending payment with reference ref1 and
its pending booking, verifyPayment succeeds and leaves the Payment row
with payment_status completed while the Booking row gets paid: the two
columns do not mirror each other, and completed is not in the
pending/paid/failed/refunded value set that database/schema.sql declares
for the payment_status enum (against the live schema this UPDATE would
be rejected outright). -/
theorem c9_verify_payment_breaks_status_mirror :
    verifyPayment ⟨[], [⟨"b1", "t1", "r1", "pending", "pending"⟩],
        [⟨"p1", "b1", "ref1", "pending"⟩], [], [], []⟩
        ⟨true, some ⟨"u1", none⟩⟩ "ref1" =
      .ok (⟨"p1", "b1", "ref1", "completed"⟩,
        ⟨[], [⟨"b1", "t1", "r1", "pending", "paid"⟩],
         [⟨"p1", "b1", "ref1", "completed"⟩], [], [], []⟩)
    ∧ ("completed" : String) ≠ "paid"
    ∧ ("completed" : String) ∉
        (["pending", "paid", "failed", "refunded"] : List String) := by
  refine ⟨rfl, by decide, by decide⟩

set_option maxRecDepth 40000

/-- C1 counterexample: 100 requests at time 0 fill the window
(reset time 900000); the next request arrives exactly at the reset
time. The claim says this request, arriving at the reset time, gets a
fresh entry with count 1 and is allowed; the code's expiry test
resetTime < now is strict, so it is counted in the old window as the
101st request and rejected, leaving the entry at count 101 with the old
reset time. -/
theorem c1_fixed_window_boundary_cex :
    (runLimiter 900000 100 none
        (List.replicate 100 0 ++ [900000])).getLast?.map
        (fun p => p.1.allowed) = some false
    ∧ limiterState 900000 100 none (List.replicate 100 0 ++ [900000])
        = some ⟨101, 900000⟩ := by
  refine ⟨by decide, by decide⟩

/-- In-window run: while every arrival is at or before the entry's reset
time, each request increments the count, so the allowed flags from count
c are decided by c + position + 1 ≤ max. -/
theorem runLimiter_window_allowed (W M R : Nat) :
    ∀ (ts : List Nat) (c : Nat), (∀ t ∈ ts, t ≤ R) →
      (runLimiter W M (some ⟨c, R⟩) ts).map (fun p => p.1.allowed)
        = (List.range ts.length).map (fun i => decide (c + i + 1 ≤ M)) := by
  intro ts
  induction ts with
  | nil => intro c h; rfl
  | cons t ts ih =>
    intro c h
    have hle : ¬ R < t := Nat.not_lt.mpr (h t (List.mem_cons_self t ts))
    have ih1 := ih (c + 1) (fun x hx => h x (List.mem_cons_of_mem t hx))
    simp only [runLimiter, isAllowed, hle, if_false, List.map_cons, ih1,
      List.length_cons, List.range_succ_eq_map, List.map_map,
      List.cons.injEq]
    refine ⟨by trivial, List.map_congr_left (fun i _ => ?_)⟩
    simp only [Function.comp_apply]
    exact decide_eq_decide.mpr (by omega)

/-- In-window run: every emitted result keeps the entry's reset time, and
its paired arrival time is one of the processed arrivals. -/
theorem runLimiter_window_resetTime (W M R : Nat) :
    ∀ (ts : List Nat) (c : Nat), (∀ t ∈ ts, t ≤ R) →
      ∀ p ∈ runLimiter W M (some ⟨c, R⟩) ts,
        p.1.resetTime = R ∧ p.2 ∈ ts := by
  intro ts
  induction ts with
  | nil => intro c h p hp; cases hp
  | cons t ts ih =>
    intro c h p hp
    have hle : ¬ R < t := Nat.not_lt.mpr (h t (List.mem_cons_self t ts))
    simp only [runLimiter, isAllowed, hle, if_false] at hp
    rcases List.mem_cons.mp hp with hp1 | hp1
    · rw [hp1]
      exact ⟨rfl, List.mem_cons_self t ts⟩
    · have := ih (c + 1) (fun x hx => h x (List.mem_cons_of_mem t hx)) p hp1
      exact ⟨this.1, List.mem_cons_of_mem t this.2⟩

/-- C1 amended: starting from an empty slot, for arrivals t0, then any
further arrivals between t0 and the reset time t0 + W inclusive, exactly
the requests in the first 100 positions are allowed and the rest
rejected, every rejection carrying a retry-after of at most 900 seconds;
and a request arriving strictly after an entry's reset time gets a fresh
entry with count 1 and reset time now + W and is allowed. A request
arriving exactly at the reset time still counts in the old window, since
the expiry test resetTime < now is strict. -/
theorem c1_fixed_window_amended :
    (∀ (t0 : Nat) (ts : List Nat),
      (∀ t ∈ ts, t0 ≤ t ∧ t ≤ t0 + 900000) →
      (runLimiter 900000 100 none (t0 :: ts)).map (fun p => p.1.allowed)
        = (List.range (ts.length + 1)).map (fun i => decide (i < 100))
      ∧ ∀ p ∈ runLimiter 900000 100 none (t0 :: ts),
          p.1.allowed = false → retryAfterSeconds p.1.resetTime p.2 ≤ 900)
    ∧ (∀ (e : RateLimitEntry) (now : Nat), e.resetTime < now →
        isAllowed 900000 100 (some e) now
          = (⟨true, now + 900000, 99⟩, some ⟨1, now + 900000⟩)) := by
  constructor
  · intro t0 ts h
    have hbound : ∀ t ∈ ts, t ≤ t0 + 900000 := fun t ht => (h t ht).2
    constructor
    · have hall := runLimiter_window_allowed 900000 100 (t0 + 900000) ts 1 hbound
      simp only [runLimiter, isAllowed, List.map_cons, hall,
        List.range_succ_eq_map, List.map_map, List.cons.injEq]
      refine ⟨by trivial, List.map_congr_left (fun i _ => ?_)⟩
      simp only [Function.comp_apply]
      exact decide_eq_decide.mpr (by omega)
    · intro p hp hfalse
      simp only [runLimiter, isAllowed] at hp
      rcases List.mem_cons.mp hp with hp1 | hp1
      · rw [hp1] at hfalse; cases hfalse
      · have hmem := runLimiter_window_resetTime 900000 100 (t0 + 900000)
          ts 1 hbound p hp1
        have ht0 : t0 ≤ p.2 := (h p.2 hmem.2).1
        rw [hmem.1]
        unfold retryAfterSeconds
        have hsub : t0 + 900000 - p.2 + 999 ≤ 900999 := by omega
        calc (t0 + 900000 - p.2 + 999) / 1000
            ≤ 900999 / 1000 := Nat.div_le_div_right hsub
          _ = 900 := by decide
  · intro e now hexp
    simp [isAllowed, hexp]

/-- C1 amended witness: two in-window requests at times 0 and 5 are both
allowed with no rejection, and an entry expired at time 10 is replaced
by a fresh count-1 entry for a request at time 11. -/
theorem c1_fixed_window_amended_witness :
    ((runLimiter 900000 100 none (0 :: [5])).map (fun p => p.1.allowed)
      = (List.range 2).map (fun i => decide (i < 100))
     ∧ ∀ p ∈ runLimiter 900000 100 none (0 :: [5]),
         p.1.allowed = false → retryAfterSeconds p.1.resetTime p.2 ≤ 900)
    ∧ isAllowed 900000 100 (some ⟨7, 10⟩) 11
      = (⟨true, 900011, 99⟩, some ⟨1, 900011⟩) :=
  ⟨c1_fixed_window_amended.1 0 [5] (by decide),
   c1_fixed_window_amended.2 ⟨7, 10⟩ 11 (by decide)⟩

/-- C6 counterexample: a booking b1 of trip t1 already carries a review
by rider rid; the same rider submits a second review with rating 6. The
claim says a duplicate (booking, reviewer) pair is always rejected with
ConflictError regardless of the rating supplied and calls the rating
rejection ValidationError; the code checks the rating first and throws
the rating-range error, whose message the classifier maps to
INTERNAL_SERVER_ERROR 500 — neither CONFLICT 409 nor BAD_USER_INPUT
400. -/
theorem c6_review_rejection_cex :
    createReview ⟨[⟨"t1", "drv", "completed"⟩],
        [⟨"b1", "t1", "rid", "completed", "paid"⟩], [],
        [⟨"rv0", "b1", "rid", "drv", 4⟩], [], []⟩
        ⟨true, some ⟨"rid", none⟩⟩ "b1" 6 "rvX"
      = (.error "Rating must be between 1 and 5",
         ⟨[⟨"t1", "drv", "completed"⟩],
          [⟨"b1", "t1", "rid", "completed", "paid"⟩], [],
          [⟨"rv0", "b1", "rid", "drv", 4⟩], [], []⟩)
    ∧ errorHandler true "Rating must be between 1 and 5"
        = ⟨"An unexpected error occurred", "INTERNAL_SERVER_ERROR", 500⟩
    ∧ (500 : Nat) ≠ 409 ∧ (500 : Nat) ≠ 400 := by
  refine ⟨rfl, by decide, by decide, by decide⟩

/-- C6 amended: a rating outside [1,5] is rejected with the rating-range
error before any row is read or written (the outcome does not depend on
the store, and the store is unchanged; the classifier maps this message
to INTERNAL_SERVER_ERROR 500, not to ValidationError 400); a second
review for an existing (booking, reviewer) pair submitted with a rating
inside [1,5], while the booking join row is visible to the reviewer, is
rejected with the already-exists error, which the classifier maps to
CONFLICT 409, with no review row inserted. -/
theorem c6_review_rejection_amended :
    (∀ (db db2 : DB) (ctx : GraphQLContext) (u : FirebaseUser)
        (bid nid : String) (r : Int),
      requireAuth ctx = .ok u → (r < 1 ∨ r > 5) →
      createReview db ctx bid r nid
        = (.error "Rating must be between 1 and 5", db)
      ∧ (createReview db ctx bid r nid).1
        = (createReview db2 ctx bid r nid).1)
    ∧ (∀ (db : DB) (ctx : GraphQLContext) (u : FirebaseUser)
        (bid nid : String) (r : Int),
      requireAuth ctx = .ok u → 1 ≤ r → r ≤ 5 →
      (∃ bt ∈ bookingTripJoin db, bt.1.id = bid ∧
        (bt.1.rider_id = u.uid ∨ bt.2 = u.uid)) →
      (∃ rv ∈ db.reviews, rv.booking_id = bid ∧ rv.reviewer_id = u.uid) →
      createReview db ctx bid r nid
        = (.error "Review already exists for this booking", db)
      ∧ (∀ production : Bool,
          errorHandler production "Review already exists for this booking"
            = ⟨"Resource already exists", "CONFLICT", 409⟩)) := by
  constructor
  · intro db db2 ctx u bid nid r hu hr
    have hb : (decide (r < 1) || decide (r > 5)) = true := by
      rcases hr with h | h <;> simp [h]
    refine ⟨?_, ?_⟩ <;> simp [createReview, hu, hb]
  · intro db ctx u bid nid r hu h1 h5 hbk hdup
    have hb : (decide (r < 1) || decide (r > 5)) = false := by
      simp only [Bool.or_eq_false_iff, decide_eq_false_iff_not, not_lt]
      exact ⟨h1, h5⟩
    have hjoin : (bookingTripJoin db).filter (fun bt =>
        bt.1.id == bid && (bt.1.rider_id == u.uid || bt.2 == u.uid)) ≠ [] := by
      rw [Ne, List.filter_eq_nil_iff]
      push_neg
      obtain ⟨bt, hmem, hid, hparty⟩ := hbk
      refine ⟨bt, hmem, ?_⟩
      simp only [Bool.and_eq_true, Bool.or_eq_true, beq_iff_eq]
      exact ⟨hid, hparty⟩
    have hdupne : db.reviews.filter (fun rv =>
        rv.booking_id == bid && rv.reviewer_id == u.uid) ≠ [] := by
      rw [Ne, List.filter_eq_nil_iff]
      push_neg
      obtain ⟨rv, hmem, hbid, hrev⟩ := hdup
      refine ⟨rv, hmem, ?_⟩
      simp only [Bool.and_eq_true, beq_iff_eq]
      exact ⟨hbid, hrev⟩
    obtain ⟨bt, bts, hbts⟩ := List.exists_cons_of_ne_nil hjoin
    obtain ⟨rv, rvs, hrvs⟩ := List.exists_cons_of_ne_nil hdupne
    refine ⟨?_, fun production => by cases production <;> decide⟩
    simp [createReview, hu, hb, hbts, hrvs]

/-- C6 amended witness: rating 0 on an empty store is rejected with the
rating-range error whatever the store holds; a duplicate with rating 3
on the populated store is rejected with the already-exists error,
classified CONFLICT 409, with the store unchanged. -/
theorem c6_review_rejection_amended_witness :
    (createReview ⟨[], [], [], [], [], []⟩
        ⟨true, some ⟨"rid", none⟩⟩ "b1" 0 "rvX"
      = (.error "Rating must be between 1 and 5", ⟨[], [], [], [], [], []⟩)
     ∧ (createReview ⟨[], [], [], [], [], []⟩
          ⟨true, some ⟨"rid", none⟩⟩ "b1" 0 "rvX").1
       = (createReview ⟨[⟨"t1", "drv", "completed"⟩], [], [], [], [], []⟩
          ⟨true, some ⟨"rid", none⟩⟩ "b1" 0 "rvX").1)
    ∧ (createReview ⟨[⟨"t1", "drv", "completed"⟩],
          [⟨"b1", "t1", "rid", "completed", "paid"⟩], [],
          [⟨"rv0", "b1", "rid", "drv", 4⟩], [], []⟩
          ⟨true, some ⟨"rid", none⟩⟩ "b1" 3 "rvX"
        = (.error "Review already exists for this booking",
           ⟨[⟨"t1", "drv", "completed"⟩],
            [⟨"b1", "t1", "rid", "completed", "paid"⟩], [],
            [⟨"rv0", "b1", "rid", "drv", 4⟩], [], []⟩)
       ∧ ∀ production : Bool,
          errorHandler production "Review already exists for this booking"
            = ⟨"Resource already exists", "CONFLICT", 409⟩) :=
  ⟨c6_review_rejection_amended.1 ⟨[], [], [], [], [], []⟩
      ⟨[⟨"t1", "drv", "completed"⟩], [], [], [], [], []⟩
      ⟨true, some ⟨"rid", none⟩⟩ ⟨"rid", none⟩ "b1" "rvX" 0 rfl
      (Or.inl (by decide)),
   c6_review_rejection_amended.2
      ⟨[⟨"t1", "drv", "completed"⟩],
       [⟨"b1", "t1", "rid", "completed", "paid"⟩], [],
       [⟨"rv0", "b1", "rid", "drv", 4⟩], [], []⟩
      ⟨true, some ⟨"rid", none⟩⟩ ⟨"rid", none⟩ "b1" "rvX" 3 rfl
      (by decide) (by decide)
      ⟨(⟨"b1", "t1", "rid", "completed", "paid"⟩, "drv"), by decide,
        rfl, Or.inl rfl⟩
      ⟨⟨"rv0", "b1", "rid", "drv", 4⟩, by decide, rfl, rfl⟩⟩

/-- C7 counterexample: riders r1, r2, r3 review their completed bookings
on driver drv's trip with ratings 1, 2, 2. The recompute stores
AVG(rating)::DECIMAL(3,2) = 1.67 (167 hundredths), but the arithmetic
mean of the three ratings is 5/3 = 1.666…, so the stored value does not
equal the mean: the DECIMAL(3,2) cast rounds it to two decimal places. -/
theorem c7_average_rating_cex :
    (runReviews ⟨[⟨"t1", "drv", "completed"⟩],
        [⟨"b1", "t1", "r1", "completed", "paid"⟩,
         ⟨"b2", "t1", "r2", "completed", "paid"⟩,
         ⟨"b3", "t1", "r3", "completed", "paid"⟩],
        [], [], [], [⟨"drv", 0⟩]⟩
        [⟨"r1", "b1", 1, "rv1"⟩, ⟨"r2", "b2", 2, "rv2"⟩,
         ⟨"r3", "b3", 2, "rv3"⟩]).map
      (fun db => db.driver_profiles.map (fun p => p.average_rating))
      = some [167]
    ∧ ((167 : Rat) / 100 ≠ listMeanQ [1, 2, 2]) := by
  constructor
  · decide
  · have : listMeanQ [1, 2, 2] = 5 / 3 := by
      norm_num [listMeanQ]
    rw [this]
    norm_num

/-- One successful createReview call through ctxOf uid, in a store where
every trip joined to a booking is driven by D and the caller is not D:
the caller must be the booking's rider, so the inserted review has
reviewee D and the given rating, trips and bookings are untouched, the
review is appended, and every driver profile of D is set to the rounded
average over the post-insert reviews of D. -/
theorem createReview_ok_driver_step
    (db : DB) (uid bid : String) (r : Int) (nid : String)
    (row : ReviewRow) (db' : DB) (D : String)
    (hdrv : ∀ b ∈ db.bookings, ∀ t ∈ db.trips,
      t.id = b.trip_id → t.driver_id = D)
    (hneq : uid ≠ D)
    (hok : createReview db (ctxOf uid) bid r nid = (.ok row, db')) :
    db'.trips = db.trips ∧ db'.bookings = db.bookings ∧
    db'.reviews = db.reviews ++ [row] ∧
    row.reviewee_id = D ∧ row.rating = r ∧
    db'.driver_profiles = db.driver_profiles.map (fun p =>
      if p.user_id == D then
        { p with average_rating :=
            pgAvgHundredths (ratingsFor (db.reviews ++ [row]) D) }
      else p) := by
  simp only [createReview, ctxOf, requireAuth] at hok
  split at hok
  · exact absurd hok (by simp)
  · split at hok
    · exact absurd hok (by simp)
    · rename_i bt bts heq
      have hbtmem : bt ∈ (bookingTripJoin db).filter (fun x =>
          x.1.id == bid && (x.1.rider_id == uid || x.2 == uid)) := by
        rw [heq]; exact List.mem_cons_self _ _
      obtain ⟨hjoinmem, hpred⟩ := List.mem_filter.mp hbtmem
      obtain ⟨b, hb, hbt⟩ := List.mem_flatMap.mp hjoinmem
      obtain ⟨t, htf, heqbt⟩ := List.mem_map.mp hbt
      obtain ⟨htmem, htid⟩ := List.mem_filter.mp htf
      have hD : bt.2 = D := by
        rw [← heqbt]
        exact hdrv b hb t htmem (beq_iff_eq.mp htid)
      have hpred2 := hpred
      simp only [Bool.and_eq_true, Bool.or_eq_true, beq_iff_eq] at hpred2
      have hrider : bt.1.rider_id = uid := by
        rcases hpred2.2 with h | h
        · exact h
        · exact absurd (hD ▸ h) (Ne.symm hneq)
      have hriderb : (bt.1.rider_id == uid) = true := beq_iff_eq.mpr hrider
      split at hok
      · exact absurd hok (by simp)
      · simp only [hriderb, if_true] at hok
        have hrow : row = ⟨nid, bid, uid, bt.2, r⟩ := by
          have := congrArg Prod.fst hok
          simpa using this.symm
        have hdb : db' = { db with
            reviews := db.reviews ++ [(⟨nid, bid, uid, bt.2, r⟩ : ReviewRow)],
            driver_profiles := db.driver_profiles.map (fun p =>
              if p.user_id == bt.2 then
                { p with average_rating := pgAvgHundredths (ratingsFor
                    (db.reviews ++ [(⟨nid, bid, uid, bt.2, r⟩ : ReviewRow)])
                    bt.2) }
              else p) } := by
          have := congrArg Prod.snd hok
          exact this.symm
        subst hrow
        rw [hdb]
        refine ⟨rfl, rfl, rfl, hD, rfl, ?_⟩
        rw [hD]

/-- Running a list of successful createReview calls, each by a caller
other than D, in a store whose joined trips are all driven by D: trips
and bookings are unchanged, the ratings recorded for D grow by exactly
the calls' ratings in order, and — once at least one call ran — every
driver profile of D holds the rounded average of the final ratings for
D. -/
theorem runReviews_driver_reviews :
    ∀ (calls : List ReviewCall) (db dbN : DB) (D : String),
      (∀ b ∈ db.bookings, ∀ t ∈ db.trips,
        t.id = b.trip_id → t.driver_id = D) →
      (∀ c ∈ calls, c.uid ≠ D) →
      runReviews db calls = some dbN →
      dbN.trips = db.trips ∧ dbN.bookings = db.bookings ∧
      ratingsFor dbN.reviews D
        = ratingsFor db.reviews D ++ calls.map (fun c => c.rating) ∧
      (calls ≠ [] → ∀ p ∈ dbN.driver_profiles, p.user_id = D →
        p.average_rating = pgAvgHundredths (ratingsFor dbN.reviews D)) := by
  intro calls
  induction calls with
  | nil =>
    intro db dbN D hdrv huid hrun
    simp only [runReviews, Option.some.injEq] at hrun
    subst hrun
    exact ⟨rfl, rfl, by simp, fun h => absurd rfl h⟩
  | cons c cs ih =>
    intro db dbN D hdrv huid hrun
    simp only [runReviews] at hrun
    split at hrun
    · rename_i row db1 heq
      have hstep := createReview_ok_driver_step db c.uid c.bookingId
        c.rating c.newId row db1 D hdrv
        (huid c (List.mem_cons_self c cs)) heq
      obtain ⟨htr, hbk, hrv, hreviewee, hrat, hprof⟩ := hstep
      have hdrv1 : ∀ b ∈ db1.bookings, ∀ t ∈ db1.trips,
          t.id = b.trip_id → t.driver_id = D := by
        rw [htr, hbk]; exact hdrv
      have hih := ih db1 dbN D hdrv1
        (fun x hx => huid x (List.mem_cons_of_mem c hx)) hrun
      obtain ⟨htrN, hbkN, hrvN, hprofN⟩ := hih
      have hratingsFor1 : ratingsFor db1.reviews D
          = ratingsFor db.reviews D ++ [c.rating] := by
        rw [hrv]
        unfold ratingsFor
        rw [List.filter_append, List.map_append]
        congr 1
        simp [hreviewee, hrat]
      refine ⟨htrN.trans htr, hbkN.trans hbk, ?_, ?_⟩
      · rw [hrvN, hratingsFor1, List.append_assoc]
        rfl
      · intro _ p hp hpD
        match cs, hrun, hrvN, hprofN with
        | [], hrun, hrvN, _ =>
          simp only [runReviews, Option.some.injEq] at hrun
          subst hrun
          rw [hprof] at hp
          obtain ⟨q, hq, hqp⟩ := List.mem_map.mp hp
          by_cases hqD : (q.user_id == D) = true
          · rw [if_pos hqD] at hqp
            rw [← hqp, hrv]
          · rw [if_neg hqD] at hqp
            rw [← hqp] at hpD
            exact absurd (beq_iff_eq.mpr hpD) hqD
        | c2 :: cs2, hrun, _, hprofN =>
          exact hprofN (by simp) p hp hpD
    · exact absurd hrun (by simp)

/-- C7 amended: starting from a store with no reviews, whose joined
trips are all driven by D, after any nonempty sequence of successful
createReview calls by callers other than D, every driver profile of D
stores the rounded two-decimal average (the DECIMAL(3,2) cast of
AVG(rating)) of exactly the calls' ratings; and any permutation of the
same calls that also runs successfully yields that same stored value, so
the result is independent of insertion order. -/
theorem c7_average_rating_amended :
    ∀ (D : String) (db0 : DB) (calls : List ReviewCall) (dbN : DB),
      (∀ b ∈ db0.bookings, ∀ t ∈ db0.trips,
        t.id = b.trip_id → t.driver_id = D) →
      (∀ c ∈ calls, c.uid ≠ D) →
      db0.reviews = [] →
      calls ≠ [] →
      runReviews db0 calls = some dbN →
      (∀ p ∈ dbN.driver_profiles, p.user_id = D →
        p.average_rating = pgAvgHundredths (calls.map (fun c => c.rating)))
      ∧ (∀ (calls2 : List ReviewCall) (dbN2 : DB), calls.Perm calls2 →
          runReviews db0 calls2 = some dbN2 →
          ∀ p ∈ dbN2.driver_profiles, p.user_id = D →
            p.average_rating
              = pgAvgHundredths (calls.map (fun c => c.rating))) := by
  intro D db0 calls dbN hdrv huid hrv0 hne hrun
  have hmain : ∀ (cl : List ReviewCall) (dbX : DB), cl ≠ [] →
      (∀ c ∈ cl, c.uid ≠ D) →
      runReviews db0 cl = some dbX →
      ∀ p ∈ dbX.driver_profiles, p.user_id = D →
        p.average_rating = pgAvgHundredths (cl.map (fun c => c.rating)) := by
    intro cl dbX hclne hcluid hclrun p hp hpD
    obtain ⟨_, _, hratings, hprof⟩ :=
      runReviews_driver_reviews cl db0 dbX D hdrv hcluid hclrun
    have : ratingsFor dbX.reviews D = cl.map (fun c => c.rating) := by
      rw [hratings, hrv0]
      simp [ratingsFor]
    rw [hprof hclne p hp hpD, this]
  constructor
  · exact hmain calls dbN hne huid hrun
  · intro calls2 dbN2 hperm hrun2
    have hne2 : calls2 ≠ [] := by
      intro h
      rw [h] at hperm
      exact hne (List.Perm.eq_nil hperm)
    have huid2 : ∀ c ∈ calls2, c.uid ≠ D :=
      fun c hc => huid c (hperm.mem_iff.mpr hc)
    have h2 := hmain calls2 dbN2 hne2 huid2 hrun2
    have hsum : (calls2.map (fun c => c.rating)).sum
        = (calls.map (fun c => c.rating)).sum :=
      ((hperm.map (fun c => c.rating)).sum_eq).symm
    have hlen : calls2.length = calls.length := (hperm.length_eq).symm
    intro p hp hpD
    rw [h2 p hp hpD]
    unfold pgAvgHundredths
    rw [List.length_map, List.length_map, hsum, hlen]

/-- C7 amended witness: one rider review with rating 4 leaves the
driver's profile at 400 hundredths, the rounded average of the single
rating. -/
theorem c7_average_rating_amended_witness :
    DriverProfileRow.average_rating ⟨"drv", 400⟩
      = pgAvgHundredths (List.map (fun c => c.rating)
          [(⟨"r1", "b1", 4, "rv1"⟩ : ReviewCall)]) :=
  (c7_average_rating_amended "drv"
    ⟨[⟨"t1", "drv", "completed"⟩],
     [⟨"b1", "t1", "r1", "completed", "paid"⟩], [], [], [], [⟨"drv", 0⟩]⟩
    [⟨"r1", "b1", 4, "rv1"⟩]
    ⟨[⟨"t1", "drv", "completed"⟩],
     [⟨"b1", "t1", "r1", "completed", "paid"⟩], [],
     [⟨"rv1", "b1", "r1", "drv", 4⟩], [], [⟨"drv", 400⟩]⟩
    (by decide) (by decide) rfl (by decide) (by decide)).1
    ⟨"drv", 400⟩ (by decide) rfl

end Y3nko
